import Mathlib

/-!
Shallow embedding of the Mobile_App repository's two source modules:

* `src/app/app/AuthContext.js` — a React auth context plus a Firestore
  data-access module (generic CRUD, statement/transaction operations).
* `src/src/lib/.../auth.js` — a Firebase auth facade, a Cloud Storage
  facade (upload/validate/delete), and the Next.js configuration.

The JS functions are `async`: each returns a promise that either resolves
or rejects.  We model a settled promise with `Promised`, and every SDK
call the code awaits by an explicit oracle argument (`Option String` for
calls whose only observable outcome is success or a thrown error message,
`Except String α` for calls that produce a value).  Firestore state is an
explicit record of collections threaded through the operations; each
collection is an association list of document id and document fields, the
shape `{ id: doc.id, ...doc.data() }` used throughout the code.
-/

namespace Mobile

/-- Outcome of a settled JS promise: `resolved` with a value, or `rejected`
with the error it was rejected with (we keep the message). -/
inductive Promised (α : Type) where
  | resolved (value : α)
  | rejected (error : String)
deriving Repr, DecidableEq

/-- JS `result.status === 'fulfilled'` on a settled promise. -/
def Promised.isFulfilled : Promised α → Bool
  | .resolved _ => true
  | .rejected _ => false

/-- JS `result.status === 'rejected'` on a settled promise. -/
def Promised.isRejected : Promised α → Bool
  | .resolved _ => false
  | .rejected _ => true

namespace Storage

/-- A browser `File` as the storage module reads it: `name`, `size` (bytes)
and MIME `type`. -/
structure File where
  name : String
  size : Nat
  type : String
deriving Repr, DecidableEq

/-- Result of `validateFile`. -/
structure ValidationResult where
  isValid : Bool
  error : Option String
deriving Repr, DecidableEq

/-- The `maxSize` constant of `validateFile`: `10 * 1024 * 1024` bytes. -/
def maxSize : Nat := 10 * 1024 * 1024

/-- The `allowedTypes` list of `validateFile`. -/
def allowedTypes : List String :=
  ["application/pdf", "image/jpeg", "image/jpg", "image/png", "image/webp"]

/-- `validateFile(file)`: rejects a missing file, then a file over
`maxSize`, then a disallowed MIME type; otherwise valid.  A JS caller can
pass no file (`null`/`undefined`), hence `Option File`. -/
def validateFile (file : Option File) : ValidationResult :=
  match file with
  | none => { isValid := false, error := some "No file selected" }
  | some f =>
    if f.size > maxSize then
      { isValid := false, error := some "File size must be less than 10MB" }
    else if !(allowedTypes.contains f.type) then
      { isValid := false,
        error := some "File type not supported. Please upload PDF, JPEG, PNG, or WebP files." }
    else
      { isValid := true, error := none }

/-- The metadata object `uploadFile`/`getFileMetadata` build from the SDK
metadata. -/
structure FileMetadata where
  name : String
  size : Nat
  contentType : String
  timeCreated : Int
  fullPath : String
deriving Repr, DecidableEq

/-- Result shape of `uploadFile`: `{ success, url?, metadata?, error? }`. -/
structure UploadResult where
  success : Bool
  url : Option String
  metadata : Option FileMetadata
  error : Option String
deriving Repr, DecidableEq

/-- `uploadFile(file, path, onProgress)`.  Oracles: `uploadErr` is the
outcome of `uploadBytes`/`uploadBytesResumable` (`some e` when the upload
task errors with message `e`), `urlRes` of `getDownloadURL`, `metaRes` of
`getMetadata`.  `onProgress` records whether a progress callback was
passed (its only control-flow effect).  The second component reports
whether an upload was started, i.e. whether control reached the SDK upload
call.  With a progress callback the code returns a hand-built promise
whose error paths call `reject`, outside the surrounding `try`/`catch`;
without one, every error is caught and turned into a resolved
`{ success: false, error }`. -/
def uploadFile (uploadErr : Option String) (urlRes : Except String String)
    (metaRes : Except String FileMetadata) (file : Option File) (path : String)
    (onProgress : Bool) : Promised UploadResult × Bool :=
  let validationResult := validateFile file
  if !validationResult.isValid then
    (.resolved { success := false, url := none, metadata := none,
                 error := validationResult.error }, false)
  else if onProgress then
    match uploadErr with
    | some e => (.rejected e, true)
    | none =>
      match urlRes with
      | .error e => (.rejected e, true)
      | .ok url =>
        match metaRes with
        | .error e => (.rejected e, true)
        | .ok md =>
          (.resolved { success := true, url := some url, metadata := some md,
                       error := none }, true)
  else
    match uploadErr with
    | some e =>
      (.resolved { success := false, url := none, metadata := none,
                   error := some e }, true)
    | none =>
      match urlRes with
      | .error e =>
        (.resolved { success := false, url := none, metadata := none,
                     error := some e }, true)
      | .ok url =>
        match metaRes with
        | .error e =>
          (.resolved { success := false, url := none, metadata := none,
                       error := some e }, true)
        | .ok md =>
          (.resolved { success := true, url := some url, metadata := some md,
                       error := none }, true)

/-- `uploadStatement(file, userId, onProgress)`: builds the path
`statements/userId/timestamp_name` and delegates to `uploadFile`.  The
timestamp comes from `Date.now()`, passed as the `now` argument. -/
def uploadStatement (uploadErr : Option String) (urlRes : Except String String)
    (metaRes : Except String FileMetadata) (now : Int) (file : File)
    (userId : String) (onProgress : Bool) : Promised UploadResult × Bool :=
  let fileName := toString now ++ "_" ++ file.name
  let path := "statements/" ++ userId ++ "/" ++ fileName
  uploadFile uploadErr urlRes metaRes (some file) path onProgress

/-- Result shape of `deleteFile`: `{ success, error? }`. -/
structure DeleteResult where
  success : Bool
  error : Option String
deriving Repr, DecidableEq

/-- `deleteFile(filePath)`.  Oracle `deleteObjectErr` gives, per path, the
error thrown by `deleteObject` if any.  The second component is the list
of `deleteObject` calls made (the path is always passed to the SDK exactly
once; a thrown error is caught and shaped into `{ success: false }`). -/
def deleteFile (deleteObjectErr : String → Option String) (filePath : String) :
    Promised DeleteResult × List String :=
  match deleteObjectErr filePath with
  | none => (.resolved { success := true, error := none }, [filePath])
  | some e => (.resolved { success := false, error := some e }, [filePath])

/-- `getFileURL(filePath)` result shape. -/
structure FileURLResult where
  success : Bool
  url : Option String
  error : Option String
deriving Repr, DecidableEq

/-- `getFileURL(filePath)`: wraps `getDownloadURL` in `try`/`catch`. -/
def getFileURL (urlRes : Except String String) (filePath : String) :
    Promised FileURLResult :=
  match urlRes with
  | .ok url => .resolved { success := true, url := some url, error := none }
  | .error e => .resolved { success := false, url := none, error := some e }

/-- `getFileMetadata(filePath)` result shape. -/
structure FileMetadataResult where
  success : Bool
  metadata : Option FileMetadata
  error : Option String
deriving Repr, DecidableEq

/-- `getFileMetadata(filePath)`: wraps `getMetadata` in `try`/`catch`. -/
def getFileMetadata (metaRes : Except String FileMetadata) (filePath : String) :
    Promised FileMetadataResult :=
  match metaRes with
  | .ok md => .resolved { success := true, metadata := some md, error := none }
  | .error e => .resolved { success := false, metadata := none, error := some e }

/-- The tally object `deleteFiles` returns under `results`. -/
structure DeleteFilesTally where
  successful : Nat
  failed : Nat
  total : Nat
deriving Repr, DecidableEq

/-- Result shape of `deleteFiles`: `{ success, results? }` or
`{ success: false, error }`. -/
structure DeleteFilesResult where
  success : Bool
  results : Option DeleteFilesTally
  error : Option String
deriving Repr, DecidableEq

/-- JS `result.value.success` read off a settled promise from `deleteFile`
(only read behind a fulfilled check or after a short-circuit). -/
def settledValueSuccess : Promised DeleteResult → Bool
  | .resolved v => v.success
  | .rejected _ => false

/-- `deleteFiles(filePaths)`: maps `deleteFile` over the paths, awaits them
with `Promise.allSettled`, and counts `successful` (fulfilled with
`value.success`) and `failed` (rejected, or fulfilled without success).
The second component is the concatenated list of `deleteObject` calls. -/
def deleteFiles (deleteObjectErr : String → Option String)
    (filePaths : List String) : Promised DeleteFilesResult × List String :=
  let settled := filePaths.map (fun path => deleteFile deleteObjectErr path)
  let results := settled.map Prod.fst
  let calls := (settled.map Prod.snd).flatten
  let successful := results.filter
    (fun r => r.isFulfilled && settledValueSuccess r)
  let failed := results.filter
    (fun r => r.isRejected || !(settledValueSuccess r))
  (.resolved { success := true,
               results := some { successful := successful.length,
                                 failed := failed.length,
                                 total := filePaths.length },
               error := none }, calls)

end Storage

namespace Firestore

/-- A user profile's `settings` object. -/
structure Settings where
  currency : String
  language : String
  theme : String
  notifications : Bool
deriving Repr, DecidableEq

/-- A user profile's `profile` object. -/
structure Profile where
  firstName : String
  lastName : String
  phone : String
  dateOfBirth : Option Int
  occupation : String
  bankAccounts : List String
deriving Repr, DecidableEq

/-- The `features` object of a subscription. -/
structure Features where
  maxStatements : Nat
  maxExports : Nat
  advancedAnalytics : Bool
deriving Repr, DecidableEq

/-- A user profile's `subscription` object. -/
structure Subscription where
  plan : String
  startDate : Int
  endDate : Option Int
  features : Features
deriving Repr, DecidableEq

/-- A document of the `users` collection, as written by
`createUserDocument`. -/
structure UserDoc where
  displayName : String
  email : String
  photoURL : String
  createdAt : Int
  updatedAt : Int
  settings : Settings
  profile : Profile
  subscription : Subscription
deriving Repr, DecidableEq

/-- A document of the `statements` collection: the fields `saveStatement`
assembles, plus the `createdAt`/`updatedAt` server timestamps that
`createDocument` attaches.  `metadata` is kept as a key-value list. -/
structure StatementDoc where
  userId : String
  fileName : String
  fileSize : Nat
  fileUrl : String
  bankName : String
  accountNumber : String
  statementPeriod : String
  totalTransactions : Nat
  status : String
  processingTime : Int
  metadata : List (String × String)
  createdAt : Int
  updatedAt : Int
deriving Repr, DecidableEq

/-- A document of the `transactions` collection, as written by
`saveTransactions`. -/
structure TransactionDoc where
  statementId : String
  date : Int
  description : String
  amount : Int
  type : String
  category : String
  subcategory : String
  balance : Int
  reference : String
  isRecurring : Bool
  tags : List String
  createdAt : Int
  updatedAt : Int
deriving Repr, DecidableEq

/-- A document of the `exportLogs` collection, as written by `logExport`. -/
structure ExportLogDoc where
  userId : String
  exportType : String
  format : String
  filters : String
  recordCount : Nat
  fileSize : Nat
  downloadUrl : String
  createdAt : Int
  updatedAt : Int
deriving Repr, DecidableEq

/-- The Firestore state the data-access module touches.  Each collection
is an association list of document id and document fields, the
`{ id: doc.id, ...doc.data() }` shape the module returns everywhere. -/
structure DB where
  users : List (String × UserDoc)
  statements : List (String × StatementDoc)
  transactions : List (String × TransactionDoc)
  exportLogs : List (String × ExportLogDoc)
deriving Repr, DecidableEq

/-- Result shape of `createDocument`: `{ success, id? }` or
`{ success: false, error }`. -/
structure CreateResult where
  success : Bool
  id : Option String
  error : Option String
deriving Repr, DecidableEq

/-- `createDocument(collectionName, data)`: `addDoc` with a fresh id and
`createdAt`/`updatedAt` server timestamps spread over `data`.  The
collection is passed as the typed association list it denotes; `data` is
abstracted over the two timestamps `addDoc` attaches (`createdAt`,
`updatedAt`).  Oracle `addDocErr` is the error thrown by `addDoc`, if any;
`freshId` the id Firestore assigns; `now` the server timestamp. -/
def createDocument (addDocErr : Option String) (freshId : String) (now : Int)
    (data : Int → Int → α) (coll : List (String × α)) :
    Promised CreateResult × List (String × α) :=
  match addDocErr with
  | some e => (.resolved { success := false, id := none, error := some e }, coll)
  | none =>
    (.resolved { success := true, id := some freshId, error := none },
     coll ++ [(freshId, data now now)])

/-- Result shape of `updateDocument`/`deleteDocument`: `{ success }` or
`{ success: false, error }`. -/
structure AckResult where
  success : Bool
  error : Option String
deriving Repr, DecidableEq

/-- `updateDocument(collectionName, docId, data)`: `updateDoc` merges
`data` plus a fresh `updatedAt` into the document.  `patch` is the merge
`{ ...old, ...data, updatedAt: now }`, abstracted over the timestamp and
the old fields.  Oracle `updateErr` is the error thrown by `updateDoc`
(also the case of a missing document, which the SDK rejects). -/
def updateDocument (updateErr : Option String) (now : Int)
    (coll : List (String × α)) (docId : String) (patch : Int → α → α) :
    Promised AckResult × List (String × α) :=
  match updateErr with
  | some e => (.resolved { success := false, error := some e }, coll)
  | none =>
    (.resolved { success := true, error := none },
     coll.map (fun p => if p.1 = docId then (p.1, patch now p.2) else p))

/-- `deleteDocument(collectionName, docId)`: `deleteDoc` removes the
document with that id. -/
def deleteDocument (deleteErr : Option String) (coll : List (String × α))
    (docId : String) : Promised AckResult × List (String × α) :=
  match deleteErr with
  | some e => (.resolved { success := false, error := some e }, coll)
  | none =>
    (.resolved { success := true, error := none },
     coll.filter (fun p => p.1 != docId))

/-- Result shape of `getDocument`: `{ success, data: { id, ...fields } }`
or `{ success: false, error }`. -/
structure GetDocumentResult (α : Type) where
  success : Bool
  data : Option (String × α)
  error : Option String
deriving Repr, DecidableEq

/-- `getDocument(collectionName, docId)`: `getDoc` then
`docSnap.exists()`; an existing document yields
`{ success: true, data: { id, ...data } }`, a missing one
`{ success: false, error: 'Document not found' }`, and a thrown SDK error
is caught into `{ success: false, error }`. -/
def getDocument (getDocErr : Option String) (coll : List (String × α))
    (docId : String) : Promised (GetDocumentResult α) :=
  match getDocErr with
  | some e => .resolved { success := false, data := none, error := some e }
  | none =>
    match coll.lookup docId with
    | some fields =>
      .resolved { success := true, data := some (docId, fields), error := none }
    | none =>
      .resolved { success := false, data := none, error := some "Document not found" }

/-- The statement data a caller hands to `saveStatement`.  The caller's
object may carry a `status` field of its own; `saveStatement` never reads
it (it hardcodes `'processed'`), and we keep it here to state that. -/
structure StatementData where
  fileName : String
  fileSize : Nat
  fileUrl : String
  bankName : String
  accountNumber : String
  statementPeriod : String
  totalTransactions : Nat
  status : Option String
  processingTime : Int
  metadata : Option (List (String × String))
deriving Repr, DecidableEq

/-- `saveStatement(userId, statementData)`: assembles the statement record
with `status: 'processed'` and `metadata: statementData.metadata || {}`
and stores it through `createDocument` in the `statements` collection. -/
def saveStatement (addDocErr : Option String) (freshId : String) (now : Int)
    (userId : String) (statementData : StatementData) (db : DB) :
    Promised CreateResult × DB :=
  let statement : Int → Int → StatementDoc := fun createdAt updatedAt =>
    { userId := userId
      fileName := statementData.fileName
      fileSize := statementData.fileSize
      fileUrl := statementData.fileUrl
      bankName := statementData.bankName
      accountNumber := statementData.accountNumber
      statementPeriod := statementData.statementPeriod
      totalTransactions := statementData.totalTransactions
      status := "processed"
      processingTime := statementData.processingTime
      metadata := statementData.metadata.getD []
      createdAt := createdAt
      updatedAt := updatedAt }
  let (r, statements) := createDocument addDocErr freshId now statement db.statements
  (r, { db with statements := statements })

/-- Result shape of `getUserStatements`/`getTransactionsByStatement`/
`getUserTransactions`: `{ success: true, data }` or
`{ success: false, error }` (no `data` field on the error path). -/
structure QueryResult (α : Type) where
  success : Bool
  data : Option (List (String × α))
  error : Option String
deriving Repr, DecidableEq

/-- Firestore's `orderBy(field, 'desc')` on a collection: a merge sort by
descending key. -/
def orderByDesc (key : α → Int) (docs : List (String × α)) :
    List (String × α) :=
  docs.mergeSort (fun a b => key b.2 ≤ key a.2)

/-- `getUserStatements(userId, limitCount = 10)`: the query
`where('userId', '==', userId)`, `orderBy('createdAt', 'desc')`,
`limit(limitCount)` over the `statements` collection, wrapped in
`try`/`catch`.  Oracle `getDocsErr` is the error thrown by `getDocs`. -/
def getUserStatements (getDocsErr : Option String) (db : DB) (userId : String)
    (limitCount : Nat := 10) : Promised (QueryResult StatementDoc) :=
  match getDocsErr with
  | some e => .resolved { success := false, data := none, error := some e }
  | none =>
    let q := (orderByDesc (·.createdAt)
      (db.statements.filter (fun p => p.2.userId == userId))).take limitCount
    .resolved { success := true, data := some q, error := none }

/-- The per-transaction input records handed to `saveTransactions`;
`isRecurring` and `tags` may be absent (the code defaults them). -/
structure TransactionData where
  date : Int
  description : String
  amount : Int
  type : String
  category : String
  subcategory : String
  balance : Int
  reference : String
  isRecurring : Option Bool
  tags : Option (List String)
deriving Repr, DecidableEq

/-- The document `saveTransactions` writes for one input transaction:
the given `statementId` stamped on, `isRecurring`/`tags` defaulted, and
the server timestamps. -/
def mkTransactionDoc (statementId : String) (now : Int)
    (transaction : TransactionData) : TransactionDoc :=
  { statementId := statementId
    date := transaction.date
    description := transaction.description
    amount := transaction.amount
    type := transaction.type
    category := transaction.category
    subcategory := transaction.subcategory
    balance := transaction.balance
    reference := transaction.reference
    isRecurring := transaction.isRecurring.getD false
    tags := transaction.tags.getD []
    createdAt := now
    updatedAt := now }

/-- Result shape of `saveTransactions`: `{ success: true, count }` or
`{ success: false, error }`. -/
structure SaveTransactionsResult where
  success : Bool
  count : Option Nat
  error : Option String
deriving Repr, DecidableEq

/-- `saveTransactions(statementId, transactions)`: one `writeBatch`, a
`batch.set` on a fresh document reference per transaction, then a single
`batch.commit()`.  The SDK commit is atomic: oracle `commitErr = none`
applies every queued write, `some e` throws and applies none.  `freshId`
gives the id Firestore assigns to the i-th fresh reference. -/
def saveTransactions (commitErr : Option String) (freshId : Nat → String)
    (now : Int) (statementId : String) (transactions : List TransactionData)
    (db : DB) : Promised SaveTransactionsResult × DB :=
  let docs := (transactions.enum).map
    (fun p => (freshId p.1, mkTransactionDoc statementId now p.2))
  match commitErr with
  | some e =>
    (.resolved { success := false, count := none, error := some e }, db)
  | none =>
    (.resolved { success := true, count := some transactions.length, error := none },
     { db with transactions := db.transactions ++ docs })

/-- `getTransactionsByStatement(statementId)`: the query
`where('statementId', '==', statementId)`, `orderBy('date', 'desc')` over
the `transactions` collection, wrapped in `try`/`catch`. -/
def getTransactionsByStatement (getDocsErr : Option String) (db : DB)
    (statementId : String) : Promised (QueryResult TransactionDoc) :=
  match getDocsErr with
  | some e => .resolved { success := false, data := none, error := some e }
  | none =>
    let q := orderByDesc (·.date)
      (db.transactions.filter (fun p => p.2.statementId == statementId))
    .resolved { success := true, data := some q, error := none }

/-- The optional `filters` argument of `getUserTransactions`.  JS tests
them with `if (filters.category)` and `if (filters.limit)`, so an empty
string or a zero limit count as absent. -/
structure Filters where
  category : Option String
  limit : Option Nat
deriving Repr, DecidableEq

/-- The default `filters = {}`. -/
def Filters.empty : Filters := { category := none, limit := none }

/-- JS truthiness of `filters.category`. -/
def Filters.categoryTruthy (filters : Filters) : Option String :=
  match filters.category with
  | some c => if c == "" then none else some c
  | none => none

/-- JS truthiness of `filters.limit`. -/
def Filters.limitTruthy (filters : Filters) : Option Nat :=
  match filters.limit with
  | some n => if n == 0 then none else some n
  | none => none

/-- `getUserTransactions(userId, filters = {})`: fetches the user's
statements with `getUserStatements(userId, 100)`, maps to their ids, and —
unless the id list is empty, which returns `{ success: true, data: [] }`
directly — queries the `transactions` collection with
`where('statementId', 'in', statementIds.slice(0, 10))` (the code slices
the id list to the first 10 entries, a single `in` clause), sorted by date
descending, then applies the optional equality filter on `category` and
the optional `limit`. -/
def getUserTransactions (stmtGetDocsErr txGetDocsErr : Option String) (db : DB)
    (userId : String) (filters : Filters := Filters.empty) :
    Promised (QueryResult TransactionDoc) :=
  match getUserStatements stmtGetDocsErr db userId 100 with
  | .rejected e => .rejected e
  | .resolved statementsResult =>
    if !statementsResult.success then
      .resolved { success := false, data := none, error := statementsResult.error }
    else
      let statementIds := (statementsResult.data.getD []).map Prod.fst
      if statementIds.length == 0 then
        .resolved { success := true, data := some [], error := none }
      else
        match txGetDocsErr with
        | some e => .resolved { success := false, data := none, error := some e }
        | none =>
          let base := orderByDesc (·.date)
            (db.transactions.filter
              (fun p => (statementIds.take 10).contains p.2.statementId))
          let withCategory :=
            match filters.categoryTruthy with
            | some c => base.filter (fun p => p.2.category == c)
            | none => base
          let limited :=
            match filters.limitTruthy with
            | some n => withCategory.take n
            | none => withCategory
          .resolved { success := true, data := some limited, error := none }

/-- `updateTransactionCategory(transactionId, category, subcategory)`:
`updateDocument` on the `transactions` collection with the two fields. -/
def updateTransactionCategory (updateErr : Option String) (now : Int)
    (db : DB) (transactionId category subcategory : String) :
    Promised AckResult × DB :=
  let (r, transactions) := updateDocument updateErr now db.transactions
    transactionId
    (fun ts t => { t with category := category, subcategory := subcategory,
                          updatedAt := ts })
  (r, { db with transactions := transactions })

/-- The export data a caller hands to `logExport`. -/
structure ExportData where
  exportType : String
  format : String
  filters : String
  recordCount : Nat
  fileSize : Nat
  downloadUrl : String
deriving Repr, DecidableEq

/-- `logExport(userId, exportData)`: assembles the export log record and
stores it through `createDocument` in the `exportLogs` collection. -/
def logExport (addDocErr : Option String) (freshId : String) (now : Int)
    (userId : String) (exportData : ExportData) (db : DB) :
    Promised CreateResult × DB :=
  let exportLog : Int → Int → ExportLogDoc := fun createdAt updatedAt =>
    { userId := userId
      exportType := exportData.exportType
      format := exportData.format
      filters := exportData.filters
      recordCount := exportData.recordCount
      fileSize := exportData.fileSize
      downloadUrl := exportData.downloadUrl
      createdAt := createdAt
      updatedAt := updatedAt }
  let (r, exportLogs) := createDocument addDocErr freshId now exportLog db.exportLogs
  (r, { db with exportLogs := exportLogs })

end Firestore

namespace Auth

/-- Modelled from the spec: `handleFirebaseError` lives in `./config`,
which is not among the source files; the spec only says SDK failures are
mapped onto `{ success: false, error }` results, so the error message is
passed through unchanged. -/
def handleFirebaseError (e : String) : String := e

/-- A Firebase `User` as this module reads it: `uid`, `email`, and the
nullable profile fields `displayName` and `photoURL`. -/
structure AuthUser where
  uid : String
  email : String
  displayName : Option String
  photoURL : Option String
deriving Repr, DecidableEq

/-- JS `a || b` on a nullable string: `null`/`undefined` and the empty
string are falsy. -/
def jsOr (a : Option String) (b : String) : String :=
  match a with
  | some s => if s == "" then b else s
  | none => b

/-- The default user document `createUserDocument` writes for `user`:
profile fields from the user (`|| ''` fallbacks, with
`additionalData.displayName` as middle fallback for the display name),
server timestamps, and the default `settings`, `profile` and
`subscription` objects; then `...additionalData` is spread over the
object, so a `displayName` key in `additionalData` overrides the computed
one.  `additionalData` is the `displayName` key of the call sites
(`{}` from `signInWithGoogle`, `{ displayName }` from `signUp`). -/
def mkUserDoc (user : AuthUser) (additionalData : Option String) (now : Int) :
    Firestore.UserDoc :=
  let base : Firestore.UserDoc :=
    { displayName := jsOr user.displayName (jsOr additionalData "")
      email := user.email
      photoURL := jsOr user.photoURL ""
      createdAt := now
      updatedAt := now
      settings := { currency := "MUR", language := "en", theme := "light",
                    notifications := true }
      profile := { firstName := "", lastName := "", phone := "",
                   dateOfBirth := none, occupation := "", bankAccounts := [] }
      subscription := { plan := "free", startDate := now, endDate := none,
                        features := { maxStatements := 10, maxExports := 5,
                                      advancedAnalytics := false } } }
  match additionalData with
  | some d => { base with displayName := d }
  | none => base

/-- `createUserDocument(user, additionalData = {})`: returns at once on a
missing user; otherwise `getDoc` on `users/uid` (a thrown error here is
uncaught and rejects the promise), and only when the document does not
exist, `setDoc` of the default document inside its own `try`/`catch`
(a `setDoc` error is caught and logged, leaving the store unchanged). -/
def createUserDocument (getDocErr setDocErr : Option String) (now : Int)
    (user : Option AuthUser) (additionalData : Option String)
    (db : Firestore.DB) : Promised Unit × Firestore.DB :=
  match user with
  | none => (.resolved (), db)
  | some u =>
    match getDocErr with
    | some e => (.rejected e, db)
    | none =>
      match db.users.lookup u.uid with
      | some _ => (.resolved (), db)
      | none =>
        match setDocErr with
        | some _ => (.resolved (), db)
        | none =>
          (.resolved (),
           { db with users := db.users ++ [(u.uid, mkUserDoc u additionalData now)] })

/-- Result shape of the three sign-in/up operations:
`{ success: true, user: { uid, email, displayName[, photoURL] } }` or
`{ success: false, error }`.  The user fields are flattened; `photoURL`
is `none` for the operations that do not include the key. -/
structure AuthResult where
  success : Bool
  uid : Option String
  email : Option String
  displayName : Option String
  photoURL : Option String
  error : Option String
deriving Repr, DecidableEq

/-- The `{ success: false, error: handleFirebaseError(error) }` shape. -/
def authFailure (e : String) : AuthResult :=
  { success := false, uid := none, email := none, displayName := none,
    photoURL := none, error := some (handleFirebaseError e) }

/-- `signIn(email, password)`: `signInWithEmailAndPassword`, then
`{ success: true, user: { uid, email, displayName } }`; any thrown error
is caught into a failure result.  It performs no Firestore operation, so
the store passes through unchanged.  Oracle `signInRes` is the outcome of
the SDK call. -/
def signIn (signInRes : Except String AuthUser) (db : Firestore.DB) :
    Promised AuthResult × Firestore.DB :=
  match signInRes with
  | .ok u =>
    (.resolved { success := true, uid := some u.uid, email := some u.email,
                 displayName := u.displayName, photoURL := none, error := none }, db)
  | .error e => (.resolved (authFailure e), db)

/-- `signUp(email, password, displayName = '')`:
`createUserWithEmailAndPassword`, an `updateProfile` when a display name
was given (the SDK updates the user's profile in place), then
`createUserDocument(user, { displayName })`; any thrown error — including
a rejection out of `createUserDocument` — is caught into a failure
result. -/
def signUp (createUserRes : Except String AuthUser)
    (updateProfileErr getDocErr setDocErr : Option String) (now : Int)
    (email password displayName : String) (db : Firestore.DB) :
    Promised AuthResult × Firestore.DB :=
  match createUserRes with
  | .error e => (.resolved (authFailure e), db)
  | .ok u =>
    match
      (if displayName == "" then some u
       else match updateProfileErr with
            | some _ => none
            | none => some { u with displayName := some displayName })
    with
    | none =>
      (.resolved (authFailure (updateProfileErr.getD "profile update failed")), db)
    | some u =>
      match createUserDocument getDocErr setDocErr now (some u) (some displayName) db with
      | (.rejected e, db) => (.resolved (authFailure e), db)
      | (.resolved _, db) =>
        (.resolved { success := true, uid := some u.uid, email := some u.email,
                     displayName := some (jsOr u.displayName displayName),
                     photoURL := none, error := none }, db)

/-- `signInWithGoogle()`: `signInWithPopup`, then
`createUserDocument(user)` (no additional data), then
`{ success: true, user: { uid, email, displayName, photoURL } }`; any
thrown error — including a rejection out of `createUserDocument` — is
caught into a failure result. -/
def signInWithGoogle (popupRes : Except String AuthUser)
    (getDocErr setDocErr : Option String) (now : Int) (db : Firestore.DB) :
    Promised AuthResult × Firestore.DB :=
  match popupRes with
  | .error e => (.resolved (authFailure e), db)
  | .ok u =>
    match createUserDocument getDocErr setDocErr now (some u) none db with
    | (.rejected e, db) => (.resolved (authFailure e), db)
    | (.resolved _, db) =>
      (.resolved { success := true, uid := some u.uid, email := some u.email,
                   displayName := u.displayName, photoURL := u.photoURL,
                   error := none }, db)

/-- Result shape of `logOut`: `{ success }` or `{ success: false, error }`. -/
structure LogOutResult where
  success : Bool
  error : Option String
deriving Repr, DecidableEq

/-- `logOut()`: `signOut` wrapped in `try`/`catch`. -/
def logOut (signOutErr : Option String) : Promised LogOutResult :=
  match signOutErr with
  | none => .resolved { success := true, error := none }
  | some e =>
    .resolved { success := false, error := some (handleFirebaseError e) }

/-- Result shape of `resetPassword`: `{ success: true, message }` or
`{ success: false, error }`. -/
structure ResetPasswordResult where
  success : Bool
  message : Option String
  error : Option String
deriving Repr, DecidableEq

/-- `resetPassword(email)`: `sendPasswordResetEmail` wrapped in
`try`/`catch`. -/
def resetPassword (sendErr : Option String) (email : String) :
    Promised ResetPasswordResult :=
  match sendErr with
  | none =>
    .resolved { success := true,
                message := some "Password reset email sent successfully.",
                error := none }
  | some e =>
    .resolved { success := false, message := none,
                error := some (handleFirebaseError e) }

/-- `getCurrentUserData(uid)`: returns `null` at once for a falsy uid;
otherwise `getDoc` on `users/uid` inside `try`/`catch`, resolving to the
document data when it exists, to `null` when it does not, and — the catch
branch — to `null` (not a `{ success: false, error }` result) when the
SDK call throws. -/
def getCurrentUserData (getDocErr : Option String) (db : Firestore.DB)
    (uid : String) : Promised (Option Firestore.UserDoc) :=
  if uid == "" then .resolved none
  else
    match getDocErr with
    | some _ => .resolved none
    | none => .resolved (db.users.lookup uid)

end Auth

/-! ## Helper lemmas -/

theorem flatten_map_singleton (l : List α) : (l.map (fun a => [a])).flatten = l := by
  induction l with
  | nil => rfl
  | cons a l ih => simp [ih]

theorem deleteFile_calls (deleteObjectErr : String → Option String) (p : String) :
    (Storage.deleteFile deleteObjectErr p).2 = [p] := by
  unfold Storage.deleteFile
  cases deleteObjectErr p <;> rfl

theorem deleteFile_fulfilled_success (deleteObjectErr : String → Option String)
    (p : String) :
    ((Storage.deleteFile deleteObjectErr p).1.isFulfilled
        && Storage.settledValueSuccess (Storage.deleteFile deleteObjectErr p).1)
      = (deleteObjectErr p).isNone := by
  unfold Storage.deleteFile
  cases deleteObjectErr p <;> rfl

theorem deleteFile_rejected_or_failed (deleteObjectErr : String → Option String)
    (p : String) :
    ((Storage.deleteFile deleteObjectErr p).1.isRejected
        || !(Storage.settledValueSuccess (Storage.deleteFile deleteObjectErr p).1))
      = (deleteObjectErr p).isSome := by
  unfold Storage.deleteFile
  cases deleteObjectErr p <;> rfl

/-- C3: for every list of N file paths, deleteFiles fires exactly one
deleteObject call per path (the call list is the path list itself), and
returns a resolved tally with `total = N`, `successful` the number of
paths whose delete succeeded, `failed` the number whose delete did not,
and `successful + failed = total = N`. -/
theorem deleteFiles_one_call_per_path_tally
    (deleteObjectErr : String → Option String) (filePaths : List String) :
    (Storage.deleteFiles deleteObjectErr filePaths).2 = filePaths ∧
    (Storage.deleteFiles deleteObjectErr filePaths).1 =
      .resolved { success := true
                  results := some
                    { successful :=
                        (filePaths.filter (fun p => (deleteObjectErr p).isNone)).length
                      failed :=
                        (filePaths.filter (fun p => (deleteObjectErr p).isSome)).length
                      total := filePaths.length }
                  error := none } ∧
    (filePaths.filter (fun p => (deleteObjectErr p).isNone)).length
      + (filePaths.filter (fun p => (deleteObjectErr p).isSome)).length
      = filePaths.length := by
  refine ⟨?_, ?_, ?_⟩
  · show ((filePaths.map (Storage.deleteFile deleteObjectErr)).map Prod.snd).flatten
      = filePaths
    rw [List.map_map]
    have : (Prod.snd ∘ Storage.deleteFile deleteObjectErr)
        = fun p : String => [p] := by
      funext p
      exact deleteFile_calls deleteObjectErr p
    rw [this, flatten_map_singleton]
  · show Promised.resolved _ = Promised.resolved _
    congr 1
    have hmap : ((filePaths.map (Storage.deleteFile deleteObjectErr)).map Prod.fst)
        = filePaths.map (fun p => (Storage.deleteFile deleteObjectErr p).1) := by
      rw [List.map_map]; rfl
    have hsucc :
        (((filePaths.map (Storage.deleteFile deleteObjectErr)).map Prod.fst).filter
          (fun r => r.isFulfilled && Storage.settledValueSuccess r)).length
        = (filePaths.filter (fun p => (deleteObjectErr p).isNone)).length := by
      rw [hmap, List.filter_map, List.length_map]
      congr 1
      apply List.filter_congr
      intro p _
      exact deleteFile_fulfilled_success deleteObjectErr p
    have hfail :
        (((filePaths.map (Storage.deleteFile deleteObjectErr)).map Prod.fst).filter
          (fun r => r.isRejected || !(Storage.settledValueSuccess r))).length
        = (filePaths.filter (fun p => (deleteObjectErr p).isSome)).length := by
      rw [hmap, List.filter_map, List.length_map]
      congr 1
      apply List.filter_congr
      intro p _
      exact deleteFile_rejected_or_failed deleteObjectErr p
    simp only [Storage.deleteFiles] at *
    rw [hsucc, hfail]
  · have h := @List.length_eq_length_filter_add String filePaths
      (fun p => (deleteObjectErr p).isNone)
    have hnot : filePaths.filter (fun p => !(deleteObjectErr p).isNone)
        = filePaths.filter (fun p => (deleteObjectErr p).isSome) := by
      apply List.filter_congr
      intro p _
      cases deleteObjectErr p <;> rfl
    rw [hnot] at h
    exact h.symm

/-- C4: uploadFile validates before uploading: a missing file, a file over
10 MB, or a disallowed content type yields a resolved
`{ success: false }` with the matching descriptive error and no upload is
started; a file passing validation reaches the SDK upload call. -/
theorem uploadFile_validates_before_upload (uploadErr : Option String)
    (urlRes : Except String String) (metaRes : Except String Storage.FileMetadata)
    (file : Option Storage.File) (path : String) (onProgress : Bool) :
    (file = none →
      Storage.uploadFile uploadErr urlRes metaRes file path onProgress
        = (.resolved { success := false, url := none, metadata := none,
                       error := some "No file selected" }, false)) ∧
    (∀ f, file = some f → f.size > Storage.maxSize →
      Storage.uploadFile uploadErr urlRes metaRes file path onProgress
        = (.resolved { success := false, url := none, metadata := none,
                       error := some "File size must be less than 10MB" }, false)) ∧
    (∀ f, file = some f → f.size ≤ Storage.maxSize →
        f.type ∉ Storage.allowedTypes →
      Storage.uploadFile uploadErr urlRes metaRes file path onProgress
        = (.resolved { success := false, url := none, metadata := none,
                       error := some "File type not supported. Please upload PDF, JPEG, PNG, or WebP files." },
           false)) ∧
    (∀ f, file = some f → f.size ≤ Storage.maxSize →
        f.type ∈ Storage.allowedTypes →
      (Storage.uploadFile uploadErr urlRes metaRes file path onProgress).2 = true) := by
  refine ⟨?_, ?_, ?_, ?_⟩
  · intro h
    subst h
    rfl
  · intro f h hsize
    subst h
    simp only [Storage.uploadFile, Storage.validateFile, if_pos hsize]
    rfl
  · intro f h hsize htype
    subst h
    have h1 : ¬ f.size > Storage.maxSize := Nat.not_lt.mpr hsize
    have h2 : Storage.allowedTypes.contains f.type = false := by
      simp only [List.contains, List.elem_eq_mem, decide_eq_false_iff_not]
      exact htype
    simp only [Storage.uploadFile, Storage.validateFile, if_neg h1, h2]
    rfl
  · intro f h hsize htype
    subst h
    have h1 : ¬ f.size > Storage.maxSize := Nat.not_lt.mpr hsize
    have h2 : Storage.allowedTypes.contains f.type = true := by
      simp only [List.contains, List.elem_eq_mem, decide_eq_true_eq]
      exact htype
    simp only [Storage.uploadFile, Storage.validateFile, if_neg h1, h2]
    cases onProgress <;> cases uploadErr <;> cases urlRes <;> cases metaRes <;> rfl

/-- C4 witness: a missing file is rejected by validation with
"No file selected" and no upload is started. -/
theorem uploadFile_validates_before_upload_witness :
    Storage.uploadFile none (.ok "https://x/u")
      (.ok { name := "a.pdf", size := 1, contentType := "application/pdf",
             timeCreated := 0, fullPath := "p/a.pdf" })
      none "p/a.pdf" false
      = (.resolved { success := false, url := none, metadata := none,
                     error := some "No file selected" }, false) :=
  (uploadFile_validates_before_upload none (.ok "https://x/u")
    (.ok { name := "a.pdf", size := 1, contentType := "application/pdf",
           timeCreated := 0, fullPath := "p/a.pdf" })
    none "p/a.pdf" false).1 rfl

/-- C6: with no SDK error, getDocument on an existing document resolves to
`{ success: true, data: { id, ...fields } }`, and on a missing document to
`{ success: false, error: 'Document not found' }`. -/
theorem getDocument_found_and_missing {α : Type} (coll : List (String × α))
    (docId : String) :
    (∀ fields, coll.lookup docId = some fields →
      Firestore.getDocument none coll docId
        = .resolved { success := true, data := some (docId, fields), error := none }) ∧
    (coll.lookup docId = none →
      Firestore.getDocument none coll docId
        = .resolved { success := false, data := none,
                      error := some "Document not found" }) := by
  constructor
  · intro fields h
    simp only [Firestore.getDocument, h]
  · intro h
    simp only [Firestore.getDocument, h]

/-- C6 witness: a two-document collection, one present id and one absent
id, hit both branches. -/
theorem getDocument_found_and_missing_witness :
    Firestore.getDocument none [("d1", (7 : Nat)), ("d2", 9)] "d1"
      = .resolved { success := true, data := some ("d1", 7), error := none } ∧
    Firestore.getDocument none [("d1", (7 : Nat)), ("d2", 9)] "d3"
      = .resolved { success := false, data := none,
                    error := some "Document not found" } :=
  ⟨(getDocument_found_and_missing [("d1", 7), ("d2", 9)] "d1").1 7 rfl,
   (getDocument_found_and_missing [("d1", 7), ("d2", 9)] "d3").2 rfl⟩

/-- C8: for every input, saveStatement stores the statement record with
status fixed to 'processed': every document its output state holds beyond
the input state has `status = "processed"`, whatever `status` the
caller-supplied statementData carried. -/
theorem saveStatement_status_always_processed (addDocErr : Option String)
    (freshId : String) (now : Int) (userId : String)
    (statementData : Firestore.StatementData) (db : Firestore.DB) :
    ∀ p ∈ ((Firestore.saveStatement addDocErr freshId now userId statementData db).2).statements,
      p ∈ db.statements ∨ p.2.status = "processed" := by
  intro p hp
  cases addDocErr with
  | some e =>
    simp only [Firestore.saveStatement, Firestore.createDocument] at hp
    exact Or.inl hp
  | none =>
    simp only [Firestore.saveStatement, Firestore.createDocument,
      List.mem_append, List.mem_singleton] at hp
    rcases hp with h | h
    · exact Or.inl h
    · subst h
      exact Or.inr rfl

/-- The statement data used in the C8 witness; its caller-supplied
`status` is not 'processed'. -/
def exampleStatementData : Firestore.StatementData :=
  { fileName := "jan.pdf", fileSize := 3, fileUrl := "https://x/jan.pdf",
    bankName := "MCB", accountNumber := "001", statementPeriod := "2024-01",
    totalTransactions := 2, status := some "pending", processingTime := 5,
    metadata := none }

/-- The document C8's witness expects `saveStatement` to store for
`exampleStatementData`. -/
def exampleStatementDoc : Firestore.StatementDoc :=
  { userId := "u1", fileName := "jan.pdf", fileSize := 3,
    fileUrl := "https://x/jan.pdf", bankName := "MCB", accountNumber := "001",
    statementPeriod := "2024-01", totalTransactions := 2,
    status := "processed", processingTime := 5, metadata := [],
    createdAt := 7, updatedAt := 7 }

/-- C8 witness: the concrete stored document is not one of the (zero)
pre-existing ones, so the theorem forces its status to be 'processed',
although the caller supplied status 'pending'. -/
theorem saveStatement_status_always_processed_witness :
    ("id1", exampleStatementDoc)
        ∈ ({ users := [], statements := [], transactions := [],
             exportLogs := [] } : Firestore.DB).statements
      ∨ ("id1", exampleStatementDoc).2.status = "processed" :=
  saveStatement_status_always_processed none "id1" 7 "u1" exampleStatementData
    { users := [], statements := [], transactions := [], exportLogs := [] }
    ("id1", exampleStatementDoc) (by decide)

/-- C5: saveTransactions commits all transactions in one batch: a
successful commit stores exactly the input list, each stamped with the
given statementId, and resolves to `{ success: true, count }` with count
the input length; a failed commit stores none of them and leaves the state
unchanged. -/
theorem saveTransactions_atomic_batch (commitErr : Option String)
    (freshId : Nat → String) (now : Int) (statementId : String)
    (transactions : List Firestore.TransactionData) (db : Firestore.DB) :
    (commitErr = none →
      (Firestore.saveTransactions commitErr freshId now statementId transactions db).1
        = .resolved { success := true, count := some transactions.length,
                      error := none } ∧
      ((Firestore.saveTransactions commitErr freshId now statementId transactions db).2).transactions
        = db.transactions ++ (transactions.enum).map
            (fun q => (freshId q.1, Firestore.mkTransactionDoc statementId now q.2)) ∧
      (∀ q ∈ ((Firestore.saveTransactions commitErr freshId now statementId transactions db).2).transactions,
        q ∈ db.transactions ∨ q.2.statementId = statementId)) ∧
    (∀ e, commitErr = some e →
      Firestore.saveTransactions commitErr freshId now statementId transactions db
        = (.resolved { success := false, count := none, error := some e }, db)) := by
  constructor
  · intro h
    subst h
    refine ⟨rfl, rfl, ?_⟩
    intro q hq
    simp only [Firestore.saveTransactions, List.mem_append, List.mem_map] at hq
    rcases hq with h | ⟨a, _, rfl⟩
    · exact Or.inl h
    · exact Or.inr rfl
  · intro e h
    subst h
    rfl

/-- The transaction data used in the C5 witness. -/
def exampleTransactionData : Firestore.TransactionData :=
  { date := 3, description := "coffee", amount := -5, type := "debit",
    category := "food", subcategory := "cafe", balance := 95,
    reference := "r1", isRecurring := none, tags := none }

/-- C5 witness: committing one concrete transaction resolves with
`count = 1`. -/
theorem saveTransactions_atomic_batch_witness :
    (Firestore.saveTransactions none (fun i => "t" ++ toString i) 9 "s1"
        [exampleTransactionData]
        { users := [], statements := [], transactions := [],
          exportLogs := [] }).1
      = .resolved { success := true, count := some 1, error := none } :=
  ((saveTransactions_atomic_batch none (fun i => "t" ++ toString i) 9 "s1"
    [exampleTransactionData]
    { users := [], statements := [], transactions := [],
      exportLogs := [] }).1 rfl).1

/-- Helper for C9: when a user document for the uid already exists,
createUserDocument leaves the whole store unchanged, for every oracle
outcome. -/
theorem createUserDocument_unchanged_of_exists
    (getDocErr setDocErr : Option String) (now : Int) (u : Auth.AuthUser)
    (additionalData : Option String) (db : Firestore.DB)
    (h : (db.users.lookup u.uid).isSome = true) :
    (Auth.createUserDocument getDocErr setDocErr now (some u) additionalData db).2
      = db := by
  cases hl : db.users.lookup u.uid with
  | none => rw [hl] at h; simp at h
  | some d =>
    cases getDocErr with
    | some e => rfl
    | none => simp [Auth.createUserDocument, hl]

/-- C9: createUserDocument is idempotent on existing users: with a user
document already stored for the uid, a call leaves the store unchanged for
any additional data and oracle outcome; and after a first successful call
for a fresh uid, any second call is a no-op on the stored state. -/
theorem createUserDocument_idempotent (getDocErr setDocErr : Option String)
    (now : Int) (u : Auth.AuthUser) (additionalData : Option String)
    (db : Firestore.DB) :
    ((db.users.lookup u.uid).isSome = true →
      (Auth.createUserDocument getDocErr setDocErr now (some u) additionalData db).2
        = db) ∧
    (db.users.lookup u.uid = none →
      ∀ (getDocErr2 setDocErr2 : Option String) (now2 : Int)
        (additionalData2 : Option String),
        (Auth.createUserDocument getDocErr2 setDocErr2 now2 (some u) additionalData2
            ((Auth.createUserDocument none none now (some u) additionalData db).2)).2
          = (Auth.createUserDocument none none now (some u) additionalData db).2) := by
  constructor
  · exact createUserDocument_unchanged_of_exists getDocErr setDocErr now u
      additionalData db
  · intro h getDocErr2 setDocErr2 now2 additionalData2
    apply createUserDocument_unchanged_of_exists
    simp only [Auth.createUserDocument, h]
    rw [List.lookup_append, h]
    simp

/-- C9 witness: with the document for uid `u1` present, a call with fresh
additional data leaves the concrete store unchanged. -/
theorem createUserDocument_idempotent_witness :
    (Auth.createUserDocument none none 3
        (some { uid := "u1", email := "e@x", displayName := none, photoURL := none })
        (some "New Name")
        { users := [("u1", Auth.mkUserDoc
            { uid := "u1", email := "e@x", displayName := none, photoURL := none }
            none 0)],
          statements := [], transactions := [], exportLogs := [] }).2
      = { users := [("u1", Auth.mkUserDoc
            { uid := "u1", email := "e@x", displayName := none, photoURL := none }
            none 0)],
          statements := [], transactions := [], exportLogs := [] } :=
  (createUserDocument_idempotent none none 3
    { uid := "u1", email := "e@x", displayName := none, photoURL := none }
    (some "New Name")
    { users := [("u1", Auth.mkUserDoc
        { uid := "u1", email := "e@x", displayName := none, photoURL := none }
        none 0)],
      statements := [], transactions := [], exportLogs := [] }).1 (by rfl)

theorem orderByDesc_perm (key : α → Int) (docs : List (String × α)) :
    (Firestore.orderByDesc key docs).Perm docs :=
  List.mergeSort_perm docs _

theorem orderByDesc_pairwise (key : α → Int) (docs : List (String × α)) :
    (Firestore.orderByDesc key docs).Pairwise
      (fun a b => key b.2 ≤ key a.2) := by
  unfold Firestore.orderByDesc
  refine List.Pairwise.imp (fun hab => of_decide_eq_true hab)
    (List.sorted_mergeSort ?_ ?_ docs)
  · intro a b c h1 h2
    simp only [decide_eq_true_eq] at h1 h2 ⊢
    exact le_trans h2 h1
  · intro a b
    simp only [Bool.or_eq_true, decide_eq_true_eq]
    exact le_total _ _

/-- C7: getTransactionsByStatement returns exactly the transactions whose
statementId equals its argument (a permutation of that filter of the
store), ordered by date descending; getUserStatements returns at most
limitCount statements, each with the given userId, ordered by createdAt
descending, and its limit defaults to 10. -/
theorem queries_filter_and_order (db : Firestore.DB)
    (statementId userId : String) (limitCount : Nat) :
    (∃ l, Firestore.getTransactionsByStatement none db statementId
        = .resolved { success := true, data := some l, error := none } ∧
      l.Perm (db.transactions.filter (fun p => p.2.statementId == statementId)) ∧
      l.Pairwise (fun a b => b.2.date ≤ a.2.date)) ∧
    (∃ l, Firestore.getUserStatements none db userId limitCount
        = .resolved { success := true, data := some l, error := none } ∧
      l.length ≤ limitCount ∧
      (∀ p ∈ l, p.2.userId = userId) ∧
      l.Pairwise (fun a b => b.2.createdAt ≤ a.2.createdAt)) ∧
    Firestore.getUserStatements none db userId
      = Firestore.getUserStatements none db userId 10 := by
  refine ⟨⟨_, rfl, ?_, ?_⟩, ⟨_, rfl, ?_, ?_, ?_⟩, rfl⟩
  · exact orderByDesc_perm _ _
  · exact orderByDesc_pairwise _ _
  · exact List.length_take_le _ _
  · intro p hp
    have hmem : p ∈ Firestore.orderByDesc (fun s => s.createdAt)
        (db.statements.filter (fun q => q.2.userId == userId)) :=
      List.take_subset _ _ hp
    have hf : p ∈ db.statements.filter (fun q => q.2.userId == userId) :=
      (orderByDesc_perm _ _).mem_iff.mp hmem
    have := (List.mem_filter.mp hf).2
    exact eq_of_beq this
  · exact List.Pairwise.sublist (List.take_sublist _ _)
      (orderByDesc_pairwise _ _)

/-- The concrete store used in the C7 witness: two transactions of two
different statements. -/
def exampleQueryDB : Firestore.DB :=
  { users := [], statements := [],
    transactions :=
      [("t1", { statementId := "s1", date := 2, description := "a",
                amount := 1, type := "debit", category := "",
                subcategory := "", balance := 0, reference := "",
                isRecurring := false, tags := [], createdAt := 0,
                updatedAt := 0 }),
       ("t2", { statementId := "s2", date := 5, description := "b",
                amount := 2, type := "credit", category := "",
                subcategory := "", balance := 0, reference := "",
                isRecurring := false, tags := [], createdAt := 0,
                updatedAt := 0 })],
    exportLogs := [] }

/-- C7 witness: the theorem instantiated at a concrete store with two
transactions of two different statements. -/
theorem queries_filter_and_order_witness :
    ∃ l, Firestore.getTransactionsByStatement none exampleQueryDB "s1"
        = .resolved { success := true, data := some l, error := none } ∧
      l.Perm (exampleQueryDB.transactions.filter
        (fun p => p.2.statementId == "s1")) ∧
      l.Pairwise (fun a b => b.2.date ≤ a.2.date) :=
  (queries_filter_and_order exampleQueryDB "s1" "u1" 5).1

/-- The statement-id list `getUserTransactions` computes: the ids of the
user's up to 100 most recent statements, as returned by
`getUserStatements(userId, 100)`. -/
def statementIdsOf (db : Firestore.DB) (userId : String) : List String :=
  (match Firestore.getUserStatements none db userId 100 with
   | .resolved r => r.data.getD []
   | .rejected _ => []).map Prod.fst

/-- C1 (amended): getUserTransactions queries a single `in` clause over
only the first 10 of the user's up-to-100 most recent statement ids — the
result is exactly the transactions of those first 10 ids (date
descending); transactions of the remaining statements never appear. -/
theorem getUserTransactions_first_ten_only (db : Firestore.DB)
    (userId : String) :
    ∃ l,
      Firestore.getUserTransactions none none db userId
        = .resolved { success := true, data := some l, error := none } ∧
      l.Perm (db.transactions.filter
        (fun p => ((statementIdsOf db userId).take 10).contains p.2.statementId)) ∧
      l.Pairwise (fun a b => b.2.date ≤ a.2.date) ∧
      (∀ p ∈ l, p.2.statementId ∈ (statementIdsOf db userId).take 10) := by
  refine ⟨Firestore.orderByDesc (fun t : Firestore.TransactionDoc => t.date)
      (db.transactions.filter
        (fun p => ((statementIdsOf db userId).take 10).contains p.2.statementId)),
    ?_, orderByDesc_perm _ _, orderByDesc_pairwise _ _, ?_⟩
  · simp only [Firestore.getUserTransactions, Firestore.getUserStatements,
      statementIdsOf, Option.getD_some, Bool.not_true, Bool.false_eq_true,
      if_false]
    by_cases h0 : ((Firestore.orderByDesc (fun s => s.createdAt)
        (db.statements.filter (fun p => p.2.userId == userId))).take 100).map
          Prod.fst = []
    · rw [h0]
      simp only [List.length_nil, Nat.zero_eq, beq_self_eq_true, if_true,
        List.take_nil]
      have hfilter : db.transactions.filter
          (fun p => ([] : List String).contains p.2.statementId) = [] := by
        apply List.filter_eq_nil_iff.mpr
        intro p _
        simp [List.contains]
      rw [hfilter]
      simp [Firestore.orderByDesc]
    · have hlen : (((Firestore.orderByDesc (fun s => s.createdAt)
          (db.statements.filter (fun p => p.2.userId == userId))).take 100).map
            Prod.fst).length ≠ 0 := by
        intro h
        exact h0 (List.length_eq_zero.mp h)
      rw [if_neg (by simpa using hlen)]
      rfl
  · intro p hp
    have hf := (orderByDesc_perm
      (fun t : Firestore.TransactionDoc => t.date) _).mem_iff.mp hp
    have hc := (List.mem_filter.mp hf).2
    simpa [List.contains] using hc

/-- A statement document of the C1 counterexample store. -/
def c1stmt (ts : Int) : Firestore.StatementDoc :=
  { userId := "u", fileName := "", fileSize := 0, fileUrl := "",
    bankName := "", accountNumber := "", statementPeriod := "",
    totalTransactions := 0, status := "processed", processingTime := 0,
    metadata := [], createdAt := ts, updatedAt := ts }

/-- The transaction of the C1 counterexample store: it belongs to the
user's 11th most recent statement. -/
def c1tx : Firestore.TransactionDoc :=
  { statementId := "s11", date := 0, description := "", amount := 0,
    type := "debit", category := "", subcategory := "", balance := 0,
    reference := "", isRecurring := false, tags := [], createdAt := 0,
    updatedAt := 0 }

/-- The C1 counterexample store: one user with 11 statements, and one
transaction, which belongs to the 11th most recent statement. -/
def c1db : Firestore.DB :=
  { users := [],
    statements :=
      [("s1", c1stmt 11), ("s2", c1stmt 10), ("s3", c1stmt 9),
       ("s4", c1stmt 8), ("s5", c1stmt 7), ("s6", c1stmt 6),
       ("s7", c1stmt 5), ("s8", c1stmt 4), ("s9", c1stmt 3),
       ("s10", c1stmt 2), ("s11", c1stmt 1)],
    transactions := [("t1", c1tx)],
    exportLogs := [] }

unseal List.merge List.mergeSort in
/-- C1 counterexample: the stored transaction belongs to one of the user's
11 (≤ 100) most recent statements, yet getUserTransactions resolves with
an empty result — the transaction of the 11th statement id can never
appear, refuting the claim that transactions of any of the up-to-100 most
recent statements can appear. -/
theorem getUserTransactions_misses_recent_statement :
    ("t1", c1tx) ∈ c1db.transactions ∧
    c1tx.statementId ∈ statementIdsOf c1db "u" ∧
    (statementIdsOf c1db "u").length = 11 ∧
    Firestore.getUserTransactions none none c1db "u"
      = .resolved { success := true, data := some [], error := none } := by
  refine ⟨?_, ?_, ?_, ?_⟩ <;> decide

/-- C1 witness: the amended theorem instantiated at the counterexample
store. -/
theorem getUserTransactions_first_ten_only_witness :
    ∃ l,
      Firestore.getUserTransactions none none c1db "u"
        = .resolved { success := true, data := some l, error := none } ∧
      l.Perm (c1db.transactions.filter
        (fun p => ((statementIdsOf c1db "u").take 10).contains p.2.statementId)) ∧
      l.Pairwise (fun a b => b.2.date ≤ a.2.date) ∧
      (∀ p ∈ l, p.2.statementId ∈ (statementIdsOf c1db "u").take 10) :=
  getUserTransactions_first_ten_only c1db "u"

/-- C2 counterexample: a first email/password sign-in of a user with no
stored document succeeds, yet no user document is created — the users
collection still has no entry for the uid, refuting the claim that every
sign-in operation creates the profile document on first sign-in. -/
theorem signIn_creates_no_document :
    (Auth.signIn
        (.ok { uid := "u1", email := "e@x", displayName := none, photoURL := none })
        { users := [], statements := [], transactions := [], exportLogs := [] }).1
      = .resolved { success := true, uid := some "u1", email := some "e@x",
                    displayName := none, photoURL := none, error := none } ∧
    ((Auth.signIn
        (.ok { uid := "u1", email := "e@x", displayName := none, photoURL := none })
        { users := [], statements := [], transactions := [], exportLogs := [] }).2).users.lookup
          "u1"
      = none :=
  ⟨rfl, rfl⟩

/-- C2 (amended): on first sign-in, only Google sign-in (and sign-up)
create the default user profile document keyed by the uid, with the
default settings, profile and subscription fields; email/password sign-in
touches no Firestore state at all. -/
theorem first_signin_document_creation :
    (∀ (signInRes : Except String Auth.AuthUser) (db : Firestore.DB),
      (Auth.signIn signInRes db).2 = db) ∧
    (∀ (u : Auth.AuthUser) (now : Int) (db : Firestore.DB),
      db.users.lookup u.uid = none →
      (Auth.signInWithGoogle (.ok u) none none now db).1
          = .resolved { success := true, uid := some u.uid,
                        email := some u.email, displayName := u.displayName,
                        photoURL := u.photoURL, error := none } ∧
      ((Auth.signInWithGoogle (.ok u) none none now db).2).users.lookup u.uid
          = some (Auth.mkUserDoc u none now) ∧
      (Auth.mkUserDoc u none now).settings
          = { currency := "MUR", language := "en", theme := "light",
              notifications := true } ∧
      (Auth.mkUserDoc u none now).profile
          = { firstName := "", lastName := "", phone := "",
              dateOfBirth := none, occupation := "", bankAccounts := [] } ∧
      (Auth.mkUserDoc u none now).subscription
          = { plan := "free", startDate := now, endDate := none,
              features := { maxStatements := 10, maxExports := 5,
                            advancedAnalytics := false } }) ∧
    (∀ (u : Auth.AuthUser) (now : Int) (db : Firestore.DB)
        (email password displayName : String),
      db.users.lookup u.uid = none →
      (((Auth.signUp (.ok u) none none none now email password displayName
          db).2).users.lookup u.uid).isSome = true) := by
  refine ⟨?_, ?_, ?_⟩
  · intro signInRes db
    cases signInRes <;> rfl
  · intro u now db h
    refine ⟨?_, ?_, rfl, rfl, rfl⟩
    · simp [Auth.signInWithGoogle, Auth.createUserDocument, h]
    · simp only [Auth.signInWithGoogle, Auth.createUserDocument, h]
      rw [List.lookup_append, h]
      simp
  · intro u now db email password displayName h
    by_cases hd : (displayName == "") = true
    · simp only [Auth.signUp]
      rw [if_pos hd]
      simp only [Auth.createUserDocument, h]
      rw [List.lookup_append, h]
      simp
    · simp only [Auth.signUp]
      rw [if_neg hd]
      simp only [Auth.createUserDocument, h]
      rw [List.lookup_append, h]
      simp

/-- C2 witness: a first Google sign-in of a concrete fresh user stores the
default document under the uid. -/
theorem first_signin_document_creation_witness :
    ((Auth.signInWithGoogle
        (.ok { uid := "u1", email := "e@x", displayName := some "Ada",
               photoURL := none })
        none none 5
        { users := [], statements := [], transactions := [],
          exportLogs := [] }).2).users.lookup "u1"
      = some (Auth.mkUserDoc
          { uid := "u1", email := "e@x", displayName := some "Ada",
            photoURL := none } none 5) :=
  ((first_signin_document_creation.2.1
    { uid := "u1", email := "e@x", displayName := some "Ada", photoURL := none }
    5
    { users := [], statements := [], transactions := [], exportLogs := [] }
    rfl).2).1

/-- A valid file used in the C10 statements: a 1-byte PDF. -/
def examplePdfFile : Storage.File :=
  { name := "a.pdf", size := 1, type := "application/pdf" }

/-- C10 counterexample: three exported operations falsify the claim that
every operation converts SDK failures into a resolved
`{ success: false, error }` result and never rejects — uploadFile with an
onProgress callback rejects its promise when the upload task errors (the
very path the claim singles out); createUserDocument rejects when its
unguarded existence check throws; and getCurrentUserData resolves an SDK
failure to null, not to a `{ success: false, error }` result. -/
theorem sdk_failure_conversion_cex :
    Storage.uploadFile (some "network error") (.ok "https://x/u")
      (.ok { name := "a.pdf", size := 1, contentType := "application/pdf",
             timeCreated := 0, fullPath := "p/a.pdf" })
      (some examplePdfFile) "p/a.pdf" true
      = (.rejected "network error", true) ∧
    Auth.createUserDocument (some "network error") none 0
        (some { uid := "u1", email := "e@x", displayName := none,
                photoURL := none }) none
        { users := [], statements := [], transactions := [], exportLogs := [] }
      = (.rejected "network error",
         { users := [], statements := [], transactions := [],
           exportLogs := [] }) ∧
    Auth.getCurrentUserData (some "network error")
        { users := [("u1", Auth.mkUserDoc
            { uid := "u1", email := "e@x", displayName := none,
              photoURL := none } none 0)],
          statements := [], transactions := [], exportLogs := [] } "u1"
      = .resolved none := by
  refine ⟨by decide, rfl, ?_⟩
  decide

/-- Helper for C10: createUserDocument either resolves (with some output
state) or rejects leaving the state unchanged. -/
theorem createUserDocument_cases (g s : Option String) (n : Int)
    (u : Auth.AuthUser) (a : Option String) (db : Firestore.DB) :
    (∃ db2, Auth.createUserDocument g s n (some u) a db
        = (.resolved (), db2)) ∨
    (∃ e, Auth.createUserDocument g s n (some u) a db = (.rejected e, db)) := by
  cases g with
  | some e => exact Or.inr ⟨e, rfl⟩
  | none =>
    cases hl : db.users.lookup u.uid with
    | some d => exact Or.inl ⟨db, by simp [Auth.createUserDocument, hl]⟩
    | none =>
      cases s with
      | some e => exact Or.inl ⟨db, by simp [Auth.createUserDocument, hl]⟩
      | none =>
        exact Or.inl ⟨{ db with
            users := db.users ++ [(u.uid, Auth.mkUserDoc u a n)] },
          by simp [Auth.createUserDocument, hl]⟩

/-- Helper for C10: the no-progress path of uploadFile always resolves. -/
theorem uploadFile_noProgress_fulfilled (uploadErr : Option String)
    (urlRes : Except String String) (metaRes : Except String Storage.FileMetadata)
    (file : Option Storage.File) (path : String) :
    (Storage.uploadFile uploadErr urlRes metaRes file path false).1.isFulfilled
      = true := by
  cases hv : Storage.validateFile file with
  | mk isValid error =>
    unfold Storage.uploadFile
    rw [hv]
    cases isValid with
    | false => rfl
    | true =>
      cases uploadErr with
      | some e => rfl
      | none =>
        cases urlRes with
        | error e => rfl
        | ok url => cases metaRes <;> rfl

/-- C10 (amended): every exported auth, document-store and file-storage
operation that returns a `{ success, ... }` result settles resolved for
every oracle outcome, and shapes an SDK failure into a resolved result
with `success = false` and the error message set — for each operation both
facts are stated, resolved-ness over all oracles and the explicit
`{ success: false, error }` value on the failing oracle.  The exceptions,
each exhibited in the counterexample, are: the uploadFile path with an
onProgress callback (rejects on upload errors), createUserDocument
(propagates its existence-check failure), and getCurrentUserData (resolves
failures to null, not to a result object). -/
theorem sdk_failures_resolve_to_error_results :
    (∀ (signInRes : Except String Auth.AuthUser) (db : Firestore.DB),
      (Auth.signIn signInRes db).1.isFulfilled = true) ∧
    (∀ (e : String) (db : Firestore.DB),
      Auth.signIn (.error e) db
        = (.resolved { success := false, uid := none, email := none,
                       displayName := none, photoURL := none,
                       error := some (Auth.handleFirebaseError e) }, db)) ∧
    (∀ (createUserRes : Except String Auth.AuthUser)
        (updateProfileErr getDocErr setDocErr : Option String) (now : Int)
        (email password displayName : String) (db : Firestore.DB),
      (Auth.signUp createUserRes updateProfileErr getDocErr setDocErr now
        email password displayName db).1.isFulfilled = true) ∧
    (∀ (e : String) (updateProfileErr getDocErr setDocErr : Option String)
        (now : Int) (email password displayName : String) (db : Firestore.DB),
      Auth.signUp (.error e) updateProfileErr getDocErr setDocErr now
          email password displayName db
        = (.resolved { success := false, uid := none, email := none,
                       displayName := none, photoURL := none,
                       error := some (Auth.handleFirebaseError e) }, db)) ∧
    (∀ (popupRes : Except String Auth.AuthUser)
        (getDocErr setDocErr : Option String) (now : Int) (db : Firestore.DB),
      (Auth.signInWithGoogle popupRes getDocErr setDocErr now
        db).1.isFulfilled = true) ∧
    (∀ (e : String) (getDocErr setDocErr : Option String) (now : Int)
        (db : Firestore.DB),
      Auth.signInWithGoogle (.error e) getDocErr setDocErr now db
        = (.resolved { success := false, uid := none, email := none,
                       displayName := none, photoURL := none,
                       error := some (Auth.handleFirebaseError e) }, db)) ∧
    (∀ signOutErr : Option String, (Auth.logOut signOutErr).isFulfilled = true) ∧
    (∀ e, Auth.logOut (some e)
      = .resolved { success := false, error := some (Auth.handleFirebaseError e) }) ∧
    (∀ (sendErr : Option String) (email : String),
      (Auth.resetPassword sendErr email).isFulfilled = true) ∧
    (∀ (e : String) (email : String),
      Auth.resetPassword (some e) email
        = .resolved { success := false, message := none,
                      error := some (Auth.handleFirebaseError e) }) ∧
    (∀ (α : Type) (addDocErr : Option String) (freshId : String) (now : Int)
        (data : Int → Int → α) (coll : List (String × α)),
      (Firestore.createDocument addDocErr freshId now data coll).1.isFulfilled
        = true) ∧
    (∀ (α : Type) (e : String) (freshId : String) (now : Int)
        (data : Int → Int → α) (coll : List (String × α)),
      Firestore.createDocument (some e) freshId now data coll
        = (.resolved { success := false, id := none, error := some e }, coll)) ∧
    (∀ (α : Type) (updateErr : Option String) (now : Int)
        (coll : List (String × α)) (docId : String) (patch : Int → α → α),
      (Firestore.updateDocument updateErr now coll docId patch).1.isFulfilled
        = true) ∧
    (∀ (α : Type) (e : String) (now : Int) (coll : List (String × α))
        (docId : String) (patch : Int → α → α),
      Firestore.updateDocument (some e) now coll docId patch
        = (.resolved { success := false, error := some e }, coll)) ∧
    (∀ (α : Type) (deleteErr : Option String) (coll : List (String × α))
        (docId : String),
      (Firestore.deleteDocument deleteErr coll docId).1.isFulfilled = true) ∧
    (∀ (α : Type) (e : String) (coll : List (String × α)) (docId : String),
      Firestore.deleteDocument (some e) coll docId
        = (.resolved { success := false, error := some e }, coll)) ∧
    (∀ (α : Type) (getDocErr : Option String) (coll : List (String × α))
        (docId : String),
      (Firestore.getDocument getDocErr coll docId).isFulfilled = true) ∧
    (∀ (α : Type) (e : String) (coll : List (String × α)) (docId : String),
      Firestore.getDocument (some e) coll docId
        = .resolved { success := false, data := none, error := some e }) ∧
    (∀ (addDocErr : Option String) (freshId : String) (now : Int)
        (userId : String) (statementData : Firestore.StatementData)
        (db : Firestore.DB),
      (Firestore.saveStatement addDocErr freshId now userId statementData
        db).1.isFulfilled = true) ∧
    (∀ (e : String) (freshId : String) (now : Int) (userId : String)
        (statementData : Firestore.StatementData) (db : Firestore.DB),
      Firestore.saveStatement (some e) freshId now userId statementData db
        = (.resolved { success := false, id := none, error := some e }, db)) ∧
    (∀ (getDocsErr : Option String) (db : Firestore.DB) (userId : String)
        (limitCount : Nat),
      (Firestore.getUserStatements getDocsErr db userId
        limitCount).isFulfilled = true) ∧
    (∀ (e : String) (db : Firestore.DB) (userId : String) (limitCount : Nat),
      Firestore.getUserStatements (some e) db userId limitCount
        = .resolved { success := false, data := none, error := some e }) ∧
    (∀ (commitErr : Option String) (freshId : Nat → String) (now : Int)
        (statementId : String) (transactions : List Firestore.TransactionData)
        (db : Firestore.DB),
      (Firestore.saveTransactions commitErr freshId now statementId
        transactions db).1.isFulfilled = true) ∧
    (∀ (e : String) (freshId : Nat → String) (now : Int) (statementId : String)
        (transactions : List Firestore.TransactionData) (db : Firestore.DB),
      Firestore.saveTransactions (some e) freshId now statementId
          transactions db
        = (.resolved { success := false, count := none, error := some e }, db)) ∧
    (∀ (getDocsErr : Option String) (db : Firestore.DB) (statementId : String),
      (Firestore.getTransactionsByStatement getDocsErr db
        statementId).isFulfilled = true) ∧
    (∀ (e : String) (db : Firestore.DB) (statementId : String),
      Firestore.getTransactionsByStatement (some e) db statementId
        = .resolved { success := false, data := none, error := some e }) ∧
    (∀ (stmtErr txErr : Option String) (db : Firestore.DB) (userId : String)
        (filters : Firestore.Filters),
      (Firestore.getUserTransactions stmtErr txErr db userId
        filters).isFulfilled = true) ∧
    (∀ (e : String) (txErr : Option String) (db : Firestore.DB)
        (userId : String) (filters : Firestore.Filters),
      Firestore.getUserTransactions (some e) txErr db userId filters
        = .resolved { success := false, data := none, error := some e }) ∧
    (∀ (updateErr : Option String) (now : Int) (db : Firestore.DB)
        (transactionId category subcategory : String),
      (Firestore.updateTransactionCategory updateErr now db transactionId
        category subcategory).1.isFulfilled = true) ∧
    (∀ (e : String) (now : Int) (db : Firestore.DB)
        (transactionId category subcategory : String),
      Firestore.updateTransactionCategory (some e) now db transactionId
          category subcategory
        = (.resolved { success := false, error := some e }, db)) ∧
    (∀ (addDocErr : Option String) (freshId : String) (now : Int)
        (userId : String) (exportData : Firestore.ExportData)
        (db : Firestore.DB),
      (Firestore.logExport addDocErr freshId now userId exportData
        db).1.isFulfilled = true) ∧
    (∀ (e : String) (freshId : String) (now : Int) (userId : String)
        (exportData : Firestore.ExportData) (db : Firestore.DB),
      Firestore.logExport (some e) freshId now userId exportData db
        = (.resolved { success := false, id := none, error := some e }, db)) ∧
    (∀ (uploadErr : Option String) (urlRes : Except String String)
        (metaRes : Except String Storage.FileMetadata)
        (file : Option Storage.File) (path : String),
      (Storage.uploadFile uploadErr urlRes metaRes file
        path false).1.isFulfilled = true) ∧
    (∀ (e : String) (urlRes : Except String String)
        (metaRes : Except String Storage.FileMetadata) (path : String),
      Storage.uploadFile (some e) urlRes metaRes (some examplePdfFile) path false
        = (.resolved { success := false, url := none, metadata := none,
                       error := some e }, true)) ∧
    (∀ (uploadErr : Option String) (urlRes : Except String String)
        (metaRes : Except String Storage.FileMetadata) (now : Int)
        (file : Storage.File) (userId : String),
      (Storage.uploadStatement uploadErr urlRes metaRes now file userId
        false).1.isFulfilled = true) ∧
    (∀ (e : String) (urlRes : Except String String)
        (metaRes : Except String Storage.FileMetadata) (now : Int)
        (userId : String),
      Storage.uploadStatement (some e) urlRes metaRes now examplePdfFile
          userId false
        = (.resolved { success := false, url := none, metadata := none,
                       error := some e }, true)) ∧
    (∀ (deleteObjectErr : String → Option String) (filePath : String),
      (Storage.deleteFile deleteObjectErr filePath).1.isFulfilled = true) ∧
    (∀ (e : String) (filePath : String),
      Storage.deleteFile (fun _ => some e) filePath
        = (.resolved { success := false, error := some e }, [filePath])) ∧
    (∀ (deleteObjectErr : String → Option String) (filePaths : List String),
      (Storage.deleteFiles deleteObjectErr filePaths).1.isFulfilled = true) ∧
    (∀ (urlRes : Except String String) (filePath : String),
      (Storage.getFileURL urlRes filePath).isFulfilled = true) ∧
    (∀ (e : String) (filePath : String),
      Storage.getFileURL (.error e) filePath
        = .resolved { success := false, url := none, error := some e }) ∧
    (∀ (metaRes : Except String Storage.FileMetadata) (filePath : String),
      (Storage.getFileMetadata metaRes filePath).isFulfilled = true) ∧
    (∀ (e : String) (filePath : String),
      Storage.getFileMetadata (.error e) filePath
        = .resolved { success := false, metadata := none,
                      error := some e }) := by
  refine ⟨?_, ?_, ?_, ?_, ?_, ?_, ?_, ?_, ?_, ?_, ?_, ?_, ?_, ?_, ?_, ?_, ?_,
    ?_, ?_, ?_, ?_, ?_, ?_, ?_, ?_, ?_, ?_, ?_, ?_, ?_, ?_, ?_, ?_, ?_, ?_,
    ?_, ?_, ?_, ?_, ?_, ?_, ?_, ?_⟩
  · intro signInRes db
    cases signInRes <;> rfl
  · intro e db
    rfl
  · intro createUserRes updateProfileErr getDocErr setDocErr now email
      password displayName db
    cases createUserRes with
    | error e => rfl
    | ok u =>
      simp only [Auth.signUp]
      by_cases hd : (displayName == "") = true
      · rw [if_pos hd]
        rcases createUserDocument_cases getDocErr setDocErr now u
          (some displayName) db with ⟨db2, hc⟩ | ⟨e, hc⟩
        · simp [hc, Promised.isFulfilled]
        · simp [hc, Promised.isFulfilled]
      · rw [if_neg hd]
        cases updateProfileErr with
        | some e => rfl
        | none =>
          rcases createUserDocument_cases getDocErr setDocErr now
            { u with displayName := some displayName } (some displayName) db
            with ⟨db2, hc⟩ | ⟨e, hc⟩
          · simp [hc, Promised.isFulfilled]
          · simp [hc, Promised.isFulfilled]
  · intro e updateProfileErr getDocErr setDocErr now email password
      displayName db
    rfl
  · intro popupRes getDocErr setDocErr now db
    cases popupRes with
    | error e => rfl
    | ok u =>
      simp only [Auth.signInWithGoogle]
      rcases createUserDocument_cases getDocErr setDocErr now u none db
        with ⟨db2, hc⟩ | ⟨e, hc⟩
      · simp [hc, Promised.isFulfilled]
      · simp [hc, Promised.isFulfilled]
  · intro e getDocErr setDocErr now db
    rfl
  · intro signOutErr
    cases signOutErr <;> rfl
  · intro e
    rfl
  · intro sendErr email
    cases sendErr <;> rfl
  · intro e email
    rfl
  · intro α addDocErr freshId now data coll
    cases addDocErr <;> rfl
  · intro α e freshId now data coll
    rfl
  · intro α updateErr now coll docId patch
    cases updateErr <;> rfl
  · intro α e now coll docId patch
    rfl
  · intro α deleteErr coll docId
    cases deleteErr <;> rfl
  · intro α e coll docId
    rfl
  · intro α getDocErr coll docId
    cases getDocErr with
    | some e => rfl
    | none =>
      cases hl : coll.lookup docId <;>
        simp [Firestore.getDocument, hl, Promised.isFulfilled]
  · intro α e coll docId
    rfl
  · intro addDocErr freshId now userId statementData db
    cases addDocErr <;> rfl
  · intro e freshId now userId statementData db
    rfl
  · intro getDocsErr db userId limitCount
    cases getDocsErr <;> rfl
  · intro e db userId limitCount
    rfl
  · intro commitErr freshId now statementId transactions db
    cases commitErr <;> rfl
  · intro e freshId now statementId transactions db
    rfl
  · intro getDocsErr db statementId
    cases getDocsErr <;> rfl
  · intro e db statementId
    rfl
  · intro stmtErr txErr db userId filters
    cases stmtErr with
    | some e => rfl
    | none =>
      simp only [Firestore.getUserTransactions, Firestore.getUserStatements,
        Bool.not_true, Bool.false_eq_true, if_false, Option.getD_some]
      split
      · rfl
      · cases txErr <;> rfl
  · intro e txErr db userId filters
    rfl
  · intro updateErr now db transactionId category subcategory
    cases updateErr <;> rfl
  · intro e now db transactionId category subcategory
    rfl
  · intro addDocErr freshId now userId exportData db
    cases addDocErr <;> rfl
  · intro e freshId now userId exportData db
    rfl
  · exact uploadFile_noProgress_fulfilled
  · intro e urlRes metaRes path
    rfl
  · intro uploadErr urlRes metaRes now file userId
    exact uploadFile_noProgress_fulfilled uploadErr urlRes metaRes (some file)
      ("statements/" ++ userId ++ "/" ++ (toString now ++ "_" ++ file.name))
  · intro e urlRes metaRes now userId
    rfl
  · intro deleteObjectErr filePath
    cases h : deleteObjectErr filePath <;>
      simp [Storage.deleteFile, h, Promised.isFulfilled]
  · intro e filePath
    rfl
  · intro deleteObjectErr filePaths
    rfl
  · intro urlRes filePath
    cases urlRes <;> rfl
  · intro e filePath
    rfl
  · intro metaRes filePath
    cases metaRes <;> rfl
  · intro e filePath
    rfl

end Mobile
